import Mathlib

/-!
Shallow embedding of two components of the Closure Library slice under
review:

* `goog.fx.DragScrollSupport` — drag-and-drop auto-scroll helper
  (geometry of the scroll-trigger zone, per-axis scroll delta, and the
  start/stop logic of the scroll timer driven by mouse-move samples).
* `goog.history.Html5History` — HTML5 history API wrapper (token
  read/write via fragment or path, duplicate-navigation suppression).

JavaScript numbers are modelled as rationals (`ℚ`): every arithmetic
operation appearing in the embedded code (addition, subtraction,
multiplication by 0.25, `Math.min`, comparisons) is exact on the values
the claims are about.  JavaScript strings are modelled as `List Char`,
so `indexOf`, `substring`, `slice` and `==` become list operations.
Stateful methods become pure functions from the receiver's state (plus
the relevant host state) to the updated state, with host-visible side
effects (history pushes/replacements, dispatched events) collected in an
explicit effect list.
-/

namespace DragScroll

/-- `goog.math.Rect`: left/top corner plus width/height. -/
structure Rect where
  left : ℚ
  top : ℚ
  width : ℚ
  height : ℚ
deriving DecidableEq

/-- `goog.math.Coordinate`. -/
structure Coordinate where
  x : ℚ
  y : ℚ
deriving DecidableEq

/-- `goog.fx.DragScrollSupport.SCROLL_STEP_` (pixels per tick). -/
def SCROLL_STEP : ℚ := 8

/-- `goog.fx.DragScrollSupport.ORIGIN_COORDINATE_`. -/
def ORIGIN_COORDINATE : Coordinate := ⟨0, 0⟩

/-- State of a `goog.fx.DragScrollSupport` instance.  The scroll timer is
represented by its enabled flag (`scrollTimer_.enabled`); the container
node is represented by the measured bounds stored in the instance. -/
structure DragScrollSupport where
  constrainScroll_ : Bool
  horizontalScrolling_ : Bool
  margin_ : ℚ
  containerIsActuallyContent_ : Bool
  containerBounds_ : Rect
  scrollBounds_ : Rect
  scrollDelta_ : Coordinate
  scrollTimerEnabled_ : Bool
deriving DecidableEq

/-- `goog.fx.DragScrollSupport.prototype.calculateScrollDelta`:
`-SCROLL_STEP_` below the range, `+SCROLL_STEP_` above it, `0` inside. -/
def calculateScrollDelta (coordinate min rangeLength : ℚ) : ℚ :=
  if coordinate < min then -SCROLL_STEP
  else if coordinate > min + rangeLength then SCROLL_STEP
  else 0

/-- `goog.fx.DragScrollSupport.prototype.constrainBounds_`: inset the
bounds by `min(margin, quarter dimension)` on each side (no-op when the
margin is falsy).  The JS method reads `this.margin_`; here the margin is
passed explicitly. -/
def constrainBounds_ (margin : ℚ) (bounds : Rect) : Rect :=
  if margin ≠ 0 then
    let quarterHeight := bounds.height * (1 / 4)
    let yMargin := min margin quarterHeight
    let b := { bounds with
               top := bounds.top + yMargin,
               height := bounds.height - 2 * yMargin }
    let quarterWidth := bounds.width * (1 / 4)
    let xMargin := min margin quarterWidth
    { b with left := b.left + xMargin, width := b.width - 2 * xMargin }
  else bounds

/-- `goog.fx.DragScrollSupport.prototype.isInContainerBounds_`:
containment test against the original (un-margined) container bounds. -/
def isInContainerBounds_ (s : DragScrollSupport) (x y : ℚ) : Bool :=
  decide (s.containerBounds_.left ≤ x) &&
  decide (s.containerBounds_.left + s.containerBounds_.width ≥ x) &&
  decide (s.containerBounds_.top ≤ y) &&
  decide (s.containerBounds_.top + s.containerBounds_.height ≥ y)

/-- `goog.fx.DragScrollSupport.prototype.setConstrainScroll`:
`this.constrainScroll_ = !!this.margin_ && constrain`. -/
def setConstrainScroll (s : DragScrollSupport) (constrain : Bool) : DragScrollSupport :=
  { s with constrainScroll_ := decide (s.margin_ ≠ 0) && constrain }

/-- `goog.fx.DragScrollSupport.prototype.setHorizontalScrolling`. -/
def setHorizontalScrolling (s : DragScrollSupport) (scrolling : Bool) : DragScrollSupport :=
  { s with horizontalScrolling_ := scrolling }

/-- The `eventOffset` computed at the top of `onMouseMove`: the origin
when the container is the page content (BODY/HTML), otherwise the
document scroll offset read from the DOM (an input here). -/
def eventOffset (s : DragScrollSupport) (documentScroll : Coordinate) : Coordinate :=
  if s.containerIsActuallyContent_ then ORIGIN_COORDINATE else documentScroll

/-- The `deltaX` local of `onMouseMove`: gated by `horizontalScrolling_`. -/
def mouseMoveDeltaX (s : DragScrollSupport) (clientX : ℚ) (documentScroll : Coordinate) : ℚ :=
  if s.horizontalScrolling_ then
    calculateScrollDelta (clientX + (eventOffset s documentScroll).x)
      s.scrollBounds_.left s.scrollBounds_.width
  else 0

/-- The `deltaY` local of `onMouseMove` (always evaluated). -/
def mouseMoveDeltaY (s : DragScrollSupport) (clientY : ℚ) (documentScroll : Coordinate) : ℚ :=
  calculateScrollDelta (clientY + (eventOffset s documentScroll).y)
    s.scrollBounds_.top s.scrollBounds_.height

/-- `goog.fx.DragScrollSupport.prototype.onMouseMove`: store the per-axis
deltas in `scrollDelta_`, then stop the timer when both deltas are zero
or when constrained scrolling is on and the sample is outside the
container bounds; otherwise start the timer if it is not running. -/
def onMouseMove (s : DragScrollSupport) (clientX clientY : ℚ)
    (documentScroll : Coordinate) : DragScrollSupport :=
  let dX := mouseMoveDeltaX s clientX documentScroll
  let dY := mouseMoveDeltaY s clientY documentScroll
  if (dX = 0 ∧ dY = 0) ∨
     (s.constrainScroll_ = true ∧
       isInContainerBounds_ s (clientX + (eventOffset s documentScroll).x)
         (clientY + (eventOffset s documentScroll).y) = false) then
    { s with scrollDelta_ := ⟨dX, dY⟩, scrollTimerEnabled_ := false }
  else if s.scrollTimerEnabled_ = false then
    { s with scrollDelta_ := ⟨dX, dY⟩, scrollTimerEnabled_ := true }
  else { s with scrollDelta_ := ⟨dX, dY⟩ }

/-- The `goog.fx.DragScrollSupport` constructor: snapshot the container
bounds (substituting the viewport size when the container is the page
content), record the margin (`opt_margin || 0`), and derive the scroll
trigger bounds via `constrainBounds_` exactly when `opt_margin` is
truthy.  The timer starts stopped and constrained scrolling off. -/
def mkDragScrollSupport (isContent : Bool) (measuredBounds : Rect)
    (viewportWidth viewportHeight : ℚ) (optMargin : Option ℚ) : DragScrollSupport :=
  let containerBounds :=
    if isContent then
      { measuredBounds with width := viewportWidth, height := viewportHeight }
    else measuredBounds
  let margin := optMargin.getD 0
  { constrainScroll_ := false
    horizontalScrolling_ := true
    margin_ := margin
    containerIsActuallyContent_ := isContent
    containerBounds_ := containerBounds
    scrollBounds_ :=
      if margin ≠ 0 then constrainBounds_ margin containerBounds else containerBounds
    scrollDelta_ := ⟨0, 0⟩
    scrollTimerEnabled_ := false }

/-- Counterexample to claim C1 as stated: with a negative `zoneLength`
the two boundary conditions overlap; at `(0, 10, -20)` the coordinate is
above `zoneMin + zoneLength = -10`, so the claim requires `+8`, but the
code's else-if chain gives the below-zone case precedence and returns
`-8`. -/
theorem calculateScrollDelta_overlap_counterexample :
    (0 : ℚ) < 10 ∧ (0 : ℚ) > 10 + (-20) ∧
    calculateScrollDelta 0 10 (-20) = -8 ∧
    calculateScrollDelta 0 10 (-20) ≠ 8 := by
  refine ⟨by decide, by norm_num, ?_, ?_⟩ <;>
    norm_num [calculateScrollDelta, SCROLL_STEP]

/-- Claim C1 (amended): `calculateScrollDelta(coordinate, zoneMin,
zoneLength)` returns `-8` if `coordinate < zoneMin`; otherwise `+8` if
`coordinate > zoneMin + zoneLength`; otherwise `0` — the below-zone case
takes precedence when both conditions hold (possible only for negative
`zoneLength`; for `zoneLength ≥ 0` the cases are mutually exclusive and
read exactly as originally stated). -/
theorem calculateScrollDelta_cases (coordinate zoneMin zoneLength : ℚ) :
    (coordinate < zoneMin →
      calculateScrollDelta coordinate zoneMin zoneLength = -8) ∧
    (¬ coordinate < zoneMin → coordinate > zoneMin + zoneLength →
      calculateScrollDelta coordinate zoneMin zoneLength = 8) ∧
    (¬ coordinate < zoneMin → ¬ coordinate > zoneMin + zoneLength →
      calculateScrollDelta coordinate zoneMin zoneLength = 0) := by
  refine ⟨fun h => ?_, fun h' h => ?_, fun h1 h2 => ?_⟩
  · simp [calculateScrollDelta, SCROLL_STEP, h]
  · simp [calculateScrollDelta, SCROLL_STEP, h, h']
  · simp [calculateScrollDelta, SCROLL_STEP, h1, h2]

/-- Witness for C1: concrete evaluations in each of the three zones. -/
theorem calculateScrollDelta_cases_witness :
    calculateScrollDelta 3 10 20 = -8 ∧
    calculateScrollDelta 31 10 20 = 8 ∧
    calculateScrollDelta 15 10 20 = 0 :=
  ⟨(calculateScrollDelta_cases 3 10 20).1 (by decide),
   (calculateScrollDelta_cases 31 10 20).2.1 (by decide) (by norm_num),
   (calculateScrollDelta_cases 15 10 20).2.2 (by decide) (by norm_num)⟩

/-- The two-step timer update at the end of `onMouseMove` (stop / start
if not running) collapses to a single conditional on the final state. -/
theorem onMouseMove_characterization (s : DragScrollSupport) (clientX clientY : ℚ)
    (documentScroll : Coordinate) :
    onMouseMove s clientX clientY documentScroll =
      if (mouseMoveDeltaX s clientX documentScroll = 0 ∧
          mouseMoveDeltaY s clientY documentScroll = 0) ∨
         (s.constrainScroll_ = true ∧
           isInContainerBounds_ s (clientX + (eventOffset s documentScroll).x)
             (clientY + (eventOffset s documentScroll).y) = false) then
        { s with scrollDelta_ := ⟨mouseMoveDeltaX s clientX documentScroll,
                                  mouseMoveDeltaY s clientY documentScroll⟩,
                 scrollTimerEnabled_ := false }
      else
        { s with scrollDelta_ := ⟨mouseMoveDeltaX s clientX documentScroll,
                                  mouseMoveDeltaY s clientY documentScroll⟩,
                 scrollTimerEnabled_ := true } := by
  obtain ⟨c, hs, m, cc, cb, sb, sd, te⟩ := s
  simp only [onMouseMove]
  split_ifs with h1 h2
  · rfl
  · rfl
  · cases te
    · exact absurd rfl h2
    · rfl

/-- Claim C2: after every `onMouseMove` call, the scroll timer is running
iff the freshly computed delta is nonzero in at least one axis and it is
not the case that constrained scrolling is on with the sample outside the
original container bounds; in particular, with constrained scrolling on,
a sample outside the container bounds stops the timer even when the raw
delta is nonzero. -/
theorem onMouseMove_timer_invariant (s : DragScrollSupport) (clientX clientY : ℚ)
    (documentScroll : Coordinate) :
    ((onMouseMove s clientX clientY documentScroll).scrollTimerEnabled_ = true ↔
      (((onMouseMove s clientX clientY documentScroll).scrollDelta_.x ≠ 0 ∨
        (onMouseMove s clientX clientY documentScroll).scrollDelta_.y ≠ 0) ∧
       ¬(s.constrainScroll_ = true ∧
         isInContainerBounds_ s (clientX + (eventOffset s documentScroll).x)
           (clientY + (eventOffset s documentScroll).y) = false))) ∧
    (s.constrainScroll_ = true →
      isInContainerBounds_ s (clientX + (eventOffset s documentScroll).x)
        (clientY + (eventOffset s documentScroll).y) = false →
      (onMouseMove s clientX clientY documentScroll).scrollTimerEnabled_ = false) := by
  rw [onMouseMove_characterization]
  split_ifs with h
  · constructor
    · simp only [Bool.false_eq_true, false_iff]
      intro hcontra
      rcases h with h | h
      · exact hcontra.1.elim (fun hx => hx h.1) (fun hy => hy h.2)
      · exact hcontra.2 h
    · intro _ _; rfl
  · push_neg at h
    constructor
    · simp only [true_iff]
      constructor
      · by_cases hx : mouseMoveDeltaX s clientX documentScroll = 0
        · exact Or.inr (h.1 hx)
        · exact Or.inl hx
      · intro hcontra
        exact h.2 hcontra.1 hcontra.2
    · intro hc hout
      exact absurd (h.2 hc hout) (by simp)

/-- Claim C3: for nonnegative container dimensions and a positive margin,
`constrainBounds_` insets each side by `min(margin, quarter dimension)`,
so the resulting width and height stay nonnegative. -/
theorem constrainBounds_insets (b : Rect) (m : ℚ)
    (hm : 0 < m) (hw : 0 ≤ b.width) (hh : 0 ≤ b.height) :
    (constrainBounds_ m b).left = b.left + min m (b.width * (1 / 4)) ∧
    (constrainBounds_ m b).top = b.top + min m (b.height * (1 / 4)) ∧
    (constrainBounds_ m b).width = b.width - 2 * min m (b.width * (1 / 4)) ∧
    (constrainBounds_ m b).height = b.height - 2 * min m (b.height * (1 / 4)) ∧
    0 ≤ (constrainBounds_ m b).width ∧ 0 ≤ (constrainBounds_ m b).height := by
  have hm' : m ≠ 0 := ne_of_gt hm
  have hL : (constrainBounds_ m b).left = b.left + min m (b.width * (1 / 4)) := by
    simp only [constrainBounds_, if_pos hm']
  have hT : (constrainBounds_ m b).top = b.top + min m (b.height * (1 / 4)) := by
    simp only [constrainBounds_, if_pos hm']
  have hW : (constrainBounds_ m b).width = b.width - 2 * min m (b.width * (1 / 4)) := by
    simp only [constrainBounds_, if_pos hm']
  have hH : (constrainBounds_ m b).height = b.height - 2 * min m (b.height * (1 / 4)) := by
    simp only [constrainBounds_, if_pos hm']
  refine ⟨hL, hT, hW, hH, ?_, ?_⟩
  · rw [hW]
    have h1 : min m (b.width * (1 / 4)) ≤ b.width * (1 / 4) := min_le_right _ _
    linarith
  · rw [hH]
    have h1 : min m (b.height * (1 / 4)) ≤ b.height * (1 / 4) := min_le_right _ _
    linarith

/-- Witness for C3: a 100×100 container with margin 60 is inset by
`min(60, 25) = 25` per side, not 60, and keeps nonnegative size. -/
theorem constrainBounds_insets_witness :
    (0 : ℚ) < 60 ∧
    (constrainBounds_ 60 ⟨0, 0, 100, 100⟩).left = 0 + min 60 (100 * (1 / 4)) ∧
    min (60 : ℚ) (100 * (1 / 4)) = 25 ∧
    0 ≤ (constrainBounds_ 60 ⟨0, 0, 100, 100⟩).width :=
  ⟨by decide,
   (constrainBounds_insets ⟨0, 0, 100, 100⟩ 60 (by decide) (by decide) (by decide)).1,
   by norm_num,
   (constrainBounds_insets ⟨0, 0, 100, 100⟩ 60 (by decide) (by decide) (by decide)).2.2.2.2.1⟩

/-- A controller built over a 100×100 container with no margin. -/
def zeroMarginState : DragScrollSupport :=
  mkDragScrollSupport false ⟨0, 0, 100, 100⟩ 0 0 none

/-- A controller built over a 100×100 container with margin 32. -/
def marginState : DragScrollSupport :=
  mkDragScrollSupport false ⟨0, 0, 100, 100⟩ 0 0 (some 32)

/-- Counterexample to claim C4 as stated: with margin 0 the setter
records nothing at all — the state after `setConstrainScroll(true)` is
identical to the state after `setConstrainScroll(false)` (and to the
original state), so no trace of the caller's intent survives. -/
theorem setConstrainScroll_no_intent_recorded :
    setConstrainScroll zeroMarginState true = setConstrainScroll zeroMarginState false ∧
    setConstrainScroll zeroMarginState true = zeroMarginState ∧
    (setConstrainScroll zeroMarginState true).constrainScroll_ = false := by
  refine ⟨?_, ?_, ?_⟩ <;> decide

/-- Claim C4 (amended): for margin 0, `setConstrainScroll(enabled)`
forces the constrained-scroll state to false and records nothing — the
resulting state is independent of the argument; for margin > 0 the state
becomes exactly the argument. -/
theorem setConstrainScroll_spec (s : DragScrollSupport) (constrain : Bool) :
    (s.margin_ = 0 →
      setConstrainScroll s constrain = { s with constrainScroll_ := false } ∧
      setConstrainScroll s constrain = setConstrainScroll s (!constrain)) ∧
    (0 < s.margin_ → (setConstrainScroll s constrain).constrainScroll_ = constrain) := by
  constructor
  · intro h0
    constructor <;> simp [setConstrainScroll, h0]
  · intro hpos
    have hne : s.margin_ ≠ 0 := ne_of_gt hpos
    simp [setConstrainScroll, hne]

/-- Witness for C4 (amended): concrete margin-0 and margin-32 states. -/
theorem setConstrainScroll_spec_witness :
    zeroMarginState.margin_ = 0 ∧
    setConstrainScroll zeroMarginState true = { zeroMarginState with constrainScroll_ := false } ∧
    (0 : ℚ) < marginState.margin_ ∧
    (setConstrainScroll marginState true).constrainScroll_ = true :=
  ⟨by decide,
   ((setConstrainScroll_spec zeroMarginState true).1 (by decide)).1,
   by decide,
   (setConstrainScroll_spec marginState true).2 (by decide)⟩

/-- The constrained controller used to witness C2: margin 32, constrained
scrolling on. -/
def constrainedState : DragScrollSupport := setConstrainScroll marginState true

/-- Witness for C2: a sample at (200, 200) — far below/right of the
100×100 container — has nonzero raw delta yet leaves the timer stopped
because constrained scrolling is on and the sample is out of bounds. -/
theorem onMouseMove_timer_invariant_witness :
    constrainedState.constrainScroll_ = true ∧
    isInContainerBounds_ constrainedState
      (200 + (eventOffset constrainedState ⟨0, 0⟩).x)
      (200 + (eventOffset constrainedState ⟨0, 0⟩).y) = false ∧
    (onMouseMove constrainedState 200 200 ⟨0, 0⟩).scrollTimerEnabled_ = false :=
  ⟨by decide,
   by norm_num [isInContainerBounds_, eventOffset, ORIGIN_COORDINATE, constrainedState,
     marginState, mkDragScrollSupport, setConstrainScroll],
   (onMouseMove_timer_invariant constrainedState 200 200 ⟨0, 0⟩).2
     (by decide)
     (by norm_num [isInContainerBounds_, eventOffset, ORIGIN_COORDINATE, constrainedState,
       marginState, mkDragScrollSupport, setConstrainScroll])⟩

end DragScroll

namespace Html5Hist

/-- JavaScript strings, modelled as lists of characters. -/
abbrev JsStr := List Char

/-- `String.prototype.indexOf` restricted to a single character: index of
the first occurrence, or none (JS `-1`). -/
def jsIndexOf (c : Char) : JsStr → Option Nat
  | [] => none
  | x :: xs => if x = c then some 0 else (jsIndexOf c xs).map (· + 1)

/-- JS `a || b` on strings: `a` unless `a` is falsy (empty). -/
def jsOrStr (a b : JsStr) : JsStr :=
  if a = [] then b else a

/-- The host window/location state visible to `Html5History`.  `href` is
the path-onwards portion of the location URL (scheme and host are
omitted: they contain neither `#` nor `?` and are never touched by the
embedded code).  `hasHistory`/`hasPushState` model the presence of
`window.history` and `window.history.pushState`. -/
structure Window where
  hasHistory : Bool
  hasPushState : Bool
  href : JsStr
  documentTitle : Option JsStr

/-- Everything of the location href up to (excluding) the first `#`. -/
def beforeHash (href : JsStr) : JsStr := href.takeWhile (· ≠ '#')

/-- `location.pathname`: the part of the href before any `?` or `#`. -/
def pathnameOfHref (href : JsStr) : JsStr :=
  (beforeHash href).takeWhile (· ≠ '?')

/-- `location.search`: from the first `?` (inclusive) up to the hash. -/
def searchOfHref (href : JsStr) : JsStr :=
  match jsIndexOf '?' (beforeHash href) with
  | none => []
  | some i => (beforeHash href).drop i

/-- The fragment computation of `getFragment_`:
`index < 0 ? '' : href.substring(index + 1)` for the first `#`. -/
def fragmentOfHref (href : JsStr) : JsStr :=
  match jsIndexOf '#' href with
  | none => []
  | some i => href.drop (i + 1)

/-- Whether a URL string starts with `#`. -/
def startsWithHash : JsStr → Bool
  | c :: _ => c = '#'
  | [] => false

/-- Host model of HTML5 `pushState`/`replaceState` URL resolution: a URL
starting with `#` replaces only the fragment of the current href; any
other URL handed over by the embedded code is path-absolute and replaces
the whole path-onwards href. -/
def applyUrl (href url : JsStr) : JsStr :=
  if startsWithHash url then beforeHash href ++ url else url

/-- `goog.history.Html5History.TokenTransformer`: duck-typed pair of
operations injected at construction (path mode only). -/
structure TokenTransformer where
  retrieveToken : JsStr → Window → JsStr
  createUrl : JsStr → JsStr → Window → JsStr

/-- State of a `goog.history.Html5History` instance. -/
structure Html5History where
  enabled_ : Bool
  useFragment_ : Bool
  pathPrefix_ : JsStr
  lastFragment_ : Option JsStr
  transformer_ : Option TokenTransformer

/-- Host-visible side effects of the embedded operations: history
mutations and dispatched `goog.history.Event`s (token, isNavigation). -/
inductive Effect where
  | pushState (title url : JsStr)
  | replaceState (title url : JsStr)
  | navigate (token : JsStr) (isNavigation : Bool)
deriving DecidableEq

/-- Result of one operation: updated instance state, updated host window
state, and the effects emitted, in order. -/
structure OpResult where
  hist : Html5History
  win : Window
  effects : List Effect

/-- `goog.history.Html5History.isSupported`:
`!!(win.history && win.history.pushState)`. -/
def isSupported (w : Window) : Bool :=
  w.hasHistory && w.hasPushState

/-- The `goog.history.Html5History` constructor: asserts `isSupported`
(modelled as returning `none` on assertion failure), then starts
disabled, in fragment mode, with path prefix `"/"`, no last fragment,
and the optional transformer. -/
def mkHtml5History (w : Window) (t : Option TokenTransformer) : Option Html5History :=
  if isSupported w then
    some { enabled_ := false, useFragment_ := true, pathPrefix_ := ['/'],
           lastFragment_ := none, transformer_ := t }
  else none

/-- `goog.history.Html5History.prototype.getFragment_`: the fragment of
the current href in fragment mode, `null` otherwise. -/
def getFragment_ (h : Html5History) (w : Window) : Option JsStr :=
  if h.useFragment_ then some (fragmentOfHref w.href) else none

/-- `goog.history.Html5History.prototype.getToken`: fragment in fragment
mode (asserted non-null), otherwise transformer retrieval or
`pathname.slice(pathPrefix.length)`. -/
def getToken (h : Html5History) (w : Window) : JsStr :=
  if h.useFragment_ then (getFragment_ h w).getD []
  else
    match h.transformer_ with
    | some t => t.retrieveToken h.pathPrefix_ w
    | none => (pathnameOfHref w.href).drop h.pathPrefix_.length

/-- `goog.history.Html5History.prototype.getUrl_`: `'#' + token` in
fragment mode, otherwise transformer URL or `pathPrefix + token +
location.search`. -/
def getUrl_ (h : Html5History) (w : Window) (token : JsStr) : JsStr :=
  if h.useFragment_ then '#' :: token
  else
    match h.transformer_ with
    | some t => t.createUrl token h.pathPrefix_ w
    | none => h.pathPrefix_ ++ token ++ searchOfHref w.href

/-- `opt_title || this.window_.document.title || ''`. -/
def effectiveTitle (optTitle : Option JsStr) (w : Window) : JsStr :=
  jsOrStr (optTitle.getD []) (jsOrStr (w.documentTitle.getD []) [])

/-- `goog.history.Html5History.prototype.setToken`: no-op when the token
equals the current one; otherwise `history.pushState` with the derived
URL followed by a non-navigation `goog.history.Event`. -/
def setToken (h : Html5History) (w : Window) (token : JsStr)
    (optTitle : Option JsStr) : OpResult :=
  if token = getToken h w then ⟨h, w, []⟩
  else
    ⟨h, { w with href := applyUrl w.href (getUrl_ h w token) },
     [Effect.pushState (effectiveTitle optTitle w) (getUrl_ h w token),
      Effect.navigate token false]⟩

/-- `goog.history.Html5History.prototype.replaceToken`: always
`history.replaceState` plus a non-navigation event, with no equality
short-circuit. -/
def replaceToken (h : Html5History) (w : Window) (token : JsStr)
    (optTitle : Option JsStr) : OpResult :=
  ⟨h, { w with href := applyUrl w.href (getUrl_ h w token) },
   [Effect.replaceState (effectiveTitle optTitle w) (getUrl_ h w token),
    Effect.navigate token false]⟩

/-- `goog.history.Html5History.prototype.setEnabled`: no-op when the
argument equals the current state; enabling dispatches one synthetic
non-navigation event carrying the current token; disabling is a pure
flag flip. -/
def setEnabled (h : Html5History) (w : Window) (enable : Bool) : OpResult :=
  if enable = h.enabled_ then ⟨h, w, []⟩
  else
    if enable then
      ⟨{ h with enabled_ := enable }, w,
       [Effect.navigate (getToken { h with enabled_ := enable } w) false]⟩
    else ⟨{ h with enabled_ := enable }, w, []⟩

/-- The two browser signals `onHistoryEvent_` listens to. -/
inductive HistoryEventKind where
  | popstate
  | hashchange
deriving DecidableEq

/-- `goog.history.Html5History.prototype.onHistoryEvent_`: when enabled,
dispatch a navigation event if the signal is POPSTATE or the fragment
changed since last observed, recording the fragment; otherwise (and when
disabled) do nothing. -/
def onHistoryEvent_ (h : Html5History) (w : Window) (k : HistoryEventKind) : OpResult :=
  if h.enabled_ then
    if k = HistoryEventKind.popstate ∨ getFragment_ h w ≠ h.lastFragment_ then
      ⟨{ h with lastFragment_ := getFragment_ h w }, w,
       [Effect.navigate (getToken h w) true]⟩
    else ⟨h, w, []⟩
  else ⟨h, w, []⟩

/-- Number of `pushState` effects in a list. -/
def countPush (l : List Effect) : Nat :=
  l.countP fun e => match e with
    | Effect.pushState _ _ => true
    | _ => false

/-- Number of `replaceState` effects in a list. -/
def countReplace (l : List Effect) : Nat :=
  l.countP fun e => match e with
    | Effect.replaceState _ _ => true
    | _ => false

/-- Number of dispatched `goog.history.Event`s in a list. -/
def countNavigate (l : List Effect) : Nat :=
  l.countP fun e => match e with
    | Effect.navigate _ _ => true
    | _ => false

theorem jsIndexOf_none_of_not_mem {c : Char} {l : JsStr} (h : c ∉ l) :
    jsIndexOf c l = none := by
  induction l with
  | nil => rfl
  | cons x xs ih =>
    have hx : ¬ x = c := fun hxc => h (by rw [← hxc]; exact List.mem_cons_self x xs)
    have hxs : c ∉ xs := fun hmem => h (List.mem_cons_of_mem x hmem)
    simp [jsIndexOf, hx, ih hxs]

theorem jsIndexOf_append_cons (c : Char) (pre post : JsStr) (h : c ∉ pre) :
    jsIndexOf c (pre ++ c :: post) = some pre.length := by
  induction pre with
  | nil => simp [jsIndexOf]
  | cons x xs ih =>
    have hx : ¬ x = c := fun hxc => h (by rw [← hxc]; exact List.mem_cons_self x xs)
    have hxs : c ∉ xs := fun hmem => h (List.mem_cons_of_mem x hmem)
    simp [jsIndexOf, hx, ih hxs]

theorem fragmentOfHref_of_no_hash {href : JsStr} (h : '#' ∉ href) :
    fragmentOfHref href = [] := by
  simp [fragmentOfHref, jsIndexOf_none_of_not_mem h]

theorem drop_after_append (c : Char) (pre post : JsStr) :
    (pre ++ c :: post).drop (pre.length + 1) = post := by
  induction pre with
  | nil => simp
  | cons x xs ih =>
    simp only [List.cons_append, List.length_cons, List.drop_succ_cons]
    exact ih

theorem fragmentOfHref_append_hash (pre post : JsStr) (h : '#' ∉ pre) :
    fragmentOfHref (pre ++ '#' :: post) = post := by
  rw [fragmentOfHref, jsIndexOf_append_cons '#' pre post h]
  exact drop_after_append '#' pre post

theorem hash_not_mem_beforeHash (href : JsStr) : '#' ∉ beforeHash href := by
  intro hmem
  have := List.mem_takeWhile_imp hmem
  simp at this

/-- After the host applies the fragment URL `#token`, reading the token
back from the location yields exactly `token` (fragment mode). -/
theorem getToken_after_fragment_push (h : Html5History) (w : Window) (t : JsStr)
    (hf : h.useFragment_ = true) :
    getToken h { w with href := beforeHash w.href ++ '#' :: t } = t := by
  simp [getToken, getFragment_, hf,
    fragmentOfHref_append_hash _ _ (hash_not_mem_beforeHash w.href)]

/-- Claim C5: `setToken` is a complete no-op (no push, no event, no state
change) when the token equals the current one, so two consecutive
`setToken(t)` calls in fragment mode issue exactly one push in total
(zero when `t` was already current); `replaceToken` issues exactly one
replace and one notification on every call, with no equality
short-circuit. -/
theorem setToken_once (h : Html5History) (w : Window) (t : JsStr) (ot ot2 : Option JsStr) :
    (t = getToken h w → setToken h w t ot = ⟨h, w, []⟩) ∧
    (h.useFragment_ = true →
      countPush ((setToken h w t ot).effects ++
        (setToken (setToken h w t ot).hist (setToken h w t ot).win t ot2).effects) =
        if t = getToken h w then 0 else 1) ∧
    countReplace (replaceToken h w t ot).effects = 1 ∧
    countNavigate (replaceToken h w t ot).effects = 1 := by
  refine ⟨fun he => by simp [setToken, he], fun hf => ?_, ?_, ?_⟩
  · by_cases he : t = getToken h w
    · simp [setToken, he, countPush]
    · have hfirst : setToken h w t ot =
          ⟨h, { w with href := beforeHash w.href ++ '#' :: t },
           [Effect.pushState (effectiveTitle ot w) ('#' :: t),
            Effect.navigate t false]⟩ := by
        simp [setToken, he, getUrl_, hf, applyUrl, startsWithHash, beforeHash]
      have hsec : setToken h { w with href := beforeHash w.href ++ '#' :: t } t ot2 =
          ⟨h, { w with href := beforeHash w.href ++ '#' :: t }, []⟩ := by
        simp [setToken, getToken_after_fragment_push h w t hf]
      rw [hfirst]
      show countPush ([Effect.pushState (effectiveTitle ot w) ('#' :: t),
          Effect.navigate t false] ++
        (setToken h { w with href := beforeHash w.href ++ '#' :: t } t ot2).effects) =
        if t = getToken h w then 0 else 1
      rw [hsec]
      simp [countPush, he]
  · simp [replaceToken, countReplace]
  · simp [replaceToken, countNavigate]

/-- The freshly constructed channel used in the witnesses: disabled,
fragment mode, default path prefix, no transformer. -/
def hist0 : Html5History :=
  { enabled_ := false, useFragment_ := true, pathPrefix_ := ['/'],
    lastFragment_ := none, transformer_ := none }

/-- The same channel after enabling. -/
def histOn : Html5History := { hist0 with enabled_ := true }

/-- A host window at `/p` with no fragment. -/
def win0 : Window :=
  { hasHistory := true, hasPushState := true, href := ['/', 'p'], documentTitle := none }

/-- A host window at `/p#ab`. -/
def winHash : Window :=
  { hasHistory := true, hasPushState := true, href := ['/', 'p', '#', 'a', 'b'],
    documentTitle := none }

/-- Witness for C5: at `/p` the current token is empty, so `setToken("")`
is a no-op, and two consecutive `setToken("x")` calls push exactly
once. -/
theorem setToken_once_witness :
    setToken hist0 win0 [] none = ⟨hist0, win0, []⟩ ∧
    countPush ((setToken hist0 win0 ['x'] none).effects ++
      (setToken (setToken hist0 win0 ['x'] none).hist
        (setToken hist0 win0 ['x'] none).win ['x'] none).effects) =
      if ['x'] = getToken hist0 win0 then 0 else 1 :=
  ⟨(setToken_once hist0 win0 [] none none).1 (by decide),
   (setToken_once hist0 win0 ['x'] none none).2.1 rfl⟩

/-- Claim C6: enabling a disabled channel emits exactly one notification
with the browser-initiated flag false carrying the current token;
disabling an enabled channel is a pure flag flip emitting nothing; a
call with the current state is a complete no-op. -/
theorem setEnabled_spec (h : Html5History) (w : Window) :
    (h.enabled_ = false →
      setEnabled h w true =
        ⟨{ h with enabled_ := true }, w, [Effect.navigate (getToken h w) false]⟩) ∧
    (h.enabled_ = true →
      setEnabled h w false = ⟨{ h with enabled_ := false }, w, []⟩) ∧
    setEnabled h w h.enabled_ = ⟨h, w, []⟩ := by
  refine ⟨fun hd => ?_, fun he => ?_, ?_⟩
  · have htok : getToken { h with enabled_ := true } w = getToken h w := rfl
    simp [setEnabled, hd, htok]
  · simp [setEnabled, he]
  · simp [setEnabled]

/-- Witness for C6: the concrete fresh channel and its enabled state. -/
theorem setEnabled_spec_witness :
    setEnabled hist0 win0 true =
      ⟨{ hist0 with enabled_ := true }, win0, [Effect.navigate (getToken hist0 win0) false]⟩ ∧
    setEnabled histOn win0 false = ⟨{ histOn with enabled_ := false }, win0, []⟩ ∧
    setEnabled hist0 win0 hist0.enabled_ = ⟨hist0, win0, []⟩ :=
  ⟨(setEnabled_spec hist0 win0).1 rfl,
   (setEnabled_spec histOn win0).2.1 rfl,
   (setEnabled_spec hist0 win0).2.2⟩

/-- Claim C7: on an enabled channel, POPSTATE always notifies, HASHCHANGE
notifies exactly when the fragment differs from the last observed one,
and a POPSTATE immediately followed by a HASHCHANGE over the same
location yields exactly one notification in total. -/
theorem onHistoryEvent_dedup (h : Html5History) (w : Window) (he : h.enabled_ = true) :
    (onHistoryEvent_ h w HistoryEventKind.popstate).effects =
        [Effect.navigate (getToken h w) true] ∧
    ((onHistoryEvent_ h w HistoryEventKind.hashchange).effects =
      if getFragment_ h w ≠ h.lastFragment_
      then [Effect.navigate (getToken h w) true] else []) ∧
    countNavigate ((onHistoryEvent_ h w HistoryEventKind.popstate).effects ++
      (onHistoryEvent_ (onHistoryEvent_ h w HistoryEventKind.popstate).hist w
        HistoryEventKind.hashchange).effects) = 1 := by
  have hpop : onHistoryEvent_ h w HistoryEventKind.popstate =
      ⟨{ h with lastFragment_ := getFragment_ h w }, w,
       [Effect.navigate (getToken h w) true]⟩ := by
    simp [onHistoryEvent_, he]
  refine ⟨by rw [hpop], ?_, ?_⟩
  · by_cases hfrag : getFragment_ h w = h.lastFragment_
    · simp [onHistoryEvent_, he, hfrag]
    · simp [onHistoryEvent_, he, hfrag]
  · rw [hpop]
    show countNavigate ([Effect.navigate (getToken h w) true] ++
      (onHistoryEvent_ { h with lastFragment_ := getFragment_ h w } w
        HistoryEventKind.hashchange).effects) = 1
    have hsec : onHistoryEvent_ { h with lastFragment_ := getFragment_ h w } w
        HistoryEventKind.hashchange =
        ⟨{ h with lastFragment_ := getFragment_ h w }, w, []⟩ := by
      simp [onHistoryEvent_, he, getFragment_]
    rw [hsec]
    simp [countNavigate]

/-- Witness for C7: enabled channel at `/p` (fragment empty, last
observed fragment still null). -/
theorem onHistoryEvent_dedup_witness :
    (onHistoryEvent_ histOn win0 HistoryEventKind.popstate).effects =
      [Effect.navigate (getToken histOn win0) true] ∧
    countNavigate ((onHistoryEvent_ histOn win0 HistoryEventKind.popstate).effects ++
      (onHistoryEvent_ (onHistoryEvent_ histOn win0 HistoryEventKind.popstate).hist win0
        HistoryEventKind.hashchange).effects) = 1 :=
  ⟨(onHistoryEvent_dedup histOn win0 rfl).1,
   (onHistoryEvent_dedup histOn win0 rfl).2.2⟩

/-- Claim C8: construction fails (assertion) exactly when `isSupported`
is false, and `isSupported` is the pure conjunction of the presence of
`window.history` and `window.history.pushState`. -/
theorem mkHtml5History_fails_iff (w : Window) (t : Option TokenTransformer) :
    (mkHtml5History w t = none ↔ isSupported w = false) ∧
    isSupported w = (w.hasHistory && w.hasPushState) := by
  constructor
  · by_cases hs : isSupported w <;> simp [mkHtml5History, hs]
  · rfl

/-- Claim C9: in fragment mode `getToken` is total: the fragment read
never fails (is always a string), an href without `#` yields the empty
token, and otherwise the token is the substring strictly after the first
`#`. -/
theorem getToken_fragment_total (h : Html5History) (w : Window)
    (hf : h.useFragment_ = true) :
    (getFragment_ h w).isSome = true ∧
    ('#' ∉ w.href → getToken h w = []) ∧
    (∀ pre post, w.href = pre ++ '#' :: post → '#' ∉ pre → getToken h w = post) := by
  refine ⟨by simp [getFragment_, hf], fun hn => ?_, fun pre post hsplit hpre => ?_⟩
  · simp [getToken, getFragment_, hf, fragmentOfHref_of_no_hash hn]
  · simp [getToken, getFragment_, hf, hsplit, fragmentOfHref_append_hash pre post hpre]

/-- Witness for C9: `/p` has no fragment (empty token); `/p#ab` yields
token `ab`. -/
theorem getToken_fragment_total_witness :
    getToken hist0 win0 = [] ∧ getToken hist0 winHash = ['a', 'b'] :=
  ⟨(getToken_fragment_total hist0 win0 rfl).2.1 (by decide),
   (getToken_fragment_total hist0 winHash rfl).2.2 ['/', 'p'] ['a', 'b'] rfl (by decide)⟩

/-- Claim C10: while the channel is disabled, a host history/fragment
signal dispatches nothing and leaves the entire channel state (including
the last observed fragment) and the host window unchanged. -/
theorem onHistoryEvent_disabled (h : Html5History) (w : Window) (k : HistoryEventKind)
    (hd : h.enabled_ = false) :
    onHistoryEvent_ h w k = ⟨h, w, []⟩ := by
  simp [onHistoryEvent_, hd]

/-- Witness for C10: a POPSTATE signal on the fresh (disabled) channel. -/
theorem onHistoryEvent_disabled_witness :
    onHistoryEvent_ hist0 win0 HistoryEventKind.popstate = ⟨hist0, win0, []⟩ :=
  onHistoryEvent_disabled hist0 win0 HistoryEventKind.popstate rfl

end Html5Hist
